import Mathlib

/-!
Verification development for the visit-processor test harness
(src/automated_tester.py and src/generate_test_itinerary.py).

The Python code is shallowly embedded: pure computations become Lean
functions, stateful methods become explicit state-passing functions, and
interactions with the outside world (the spreadsheet application, the HTTP
text-generation service, the screen-capture library, the random number
generator, the wall clock) become explicit parameters or oracle inputs.
Wall-clock instants are modelled as integers (seconds); `datetime`
subtraction `total_seconds()` on such integral instants is exact integer
subtraction, and Python float formatting `:.1f` of an integral value
renders as the integer followed by ".0".
-/

set_option maxRecDepth 40000

namespace VisitProc

/-! ## TestResult (src/automated_tester.py, class TestResult, lines 318-352) -/

/-- One entry of `TestResult.steps` as built by `TestResult.add_step`:
a dict with keys description, status, details, timestamp. -/
structure StepRecord where
  description : String
  status : String
  details : Option String
  timestamp : Int
deriving DecidableEq

/-- One entry of `TestResult.errors` as built by `TestResult.add_error`. -/
structure ErrorRecord where
  error : String
  timestamp : Int
deriving DecidableEq

/-- One entry of `TestResult.screenshots` as appended by
`VisitDocumentTester.step` (a dict with keys name and path). -/
structure ScreenshotRef where
  name : String
  path : String
deriving DecidableEq

/-- The mutable state of a `TestResult` object. -/
structure TestResult where
  name : String
  start_time : Int
  end_time : Option Int
  status : String
  steps : List StepRecord
  errors : List ErrorRecord
  screenshots : List ScreenshotRef
deriving DecidableEq

/-- Python `TestResult.__init__(name)`: `start_time = datetime.now()` is the
construction instant `now`. -/
def mkTestResult (name : String) (now : Int) : TestResult :=
  { name := name, start_time := now, end_time := none, status := "running",
    steps := [], errors := [], screenshots := [] }

/-- Python `TestResult.add_step(description, status="pass", details=None)`;
the timestamp is the call instant `ts`. -/
def TestResult.add_step (t : TestResult) (description status : String)
    (details : Option String) (ts : Int) : TestResult :=
  { t with steps := t.steps ++ [{ description := description, status := status,
                                  details := details, timestamp := ts }] }

/-- Python `TestResult.add_error(error)`; the recorded message is `str(error)`. -/
def TestResult.add_error (t : TestResult) (e : String) (ts : Int) : TestResult :=
  { t with errors := t.errors ++ [{ error := e, timestamp := ts }] }

/-- Python `TestResult.finish(status="pass")`: sets `end_time` to the call instant
and the overall status to `status` when the errors list is empty, to
"fail" otherwise.  The Python default argument `status="pass"` is made
explicit at the call sites of this model. -/
def TestResult.finish (t : TestResult) (now : Int) (status : String) : TestResult :=
  { t with end_time := some now,
           status := if t.errors.isEmpty then status else "fail" }

/-- Python `TestResult.duration` property: `(end_time - start_time).total_seconds()`
when `end_time` is set (a `datetime` is always truthy), `0` otherwise. -/
def TestResult.duration (t : TestResult) : Int :=
  match t.end_time with
  | some e => e - t.start_time
  | none => 0

/-! ## VisitDocumentTester.step (src/automated_tester.py, lines 597-622)

`step` runs the optional action, then (on success) captures a screenshot
and records a passing step; any exception from the body is caught and
recorded as a failing step plus an error entry.  The embedding takes the
action outcome as `actionErr` (`some e` means the action raised an
exception whose `str` is `e`) and the screenshot result as `ssPath`
(`ScreenshotCapture.capture` returns a path or `None`; it never raises,
see `ScreenshotCapture.capture` below).  `self.current_test` is assumed
set (as it is throughout the scenarios). -/

def tester_step (t : TestResult) (description : String) (ts : Int)
    (actionErr : Option String) (ssPath : Option String) : TestResult × Bool :=
  match actionErr with
  | some e =>
      ((t.add_step description "fail" (some e) ts).add_error e ts, false)
  | none =>
      let t1 := match ssPath with
        | some p => { t with screenshots :=
            t.screenshots ++ [({ name := description, path := p } : ScreenshotRef)] }
        | none => t
      (t1.add_step description "pass" none ts, true)

/-- Python `VisitDocumentTester.finish_test` completes the current test with the
default status "pass" (line 627: `self.current_test.finish()`). -/
def finish_test (t : TestResult) (now : Int) : TestResult :=
  t.finish now "pass"

/-! ## HTMLReporter._build_html (src/automated_tester.py, lines 374-478)

The report is one string.  Literal braces from the doubled `{{`/`}}` of the
Python f-string are written with the escapes \x7b and \x7d, and literal
apostrophes with \x27; everything else is transcribed verbatim.  The
`datetime.now()` header stamp and the `os.path.relpath` computation are
outside the embedding and enter as the parameters `nowStr` and `relpath`. -/

/-- Python `passed = sum(1 for t in test_results if t.status == "pass")`. -/
def passedCount (results : List TestResult) : Nat :=
  results.countP (fun t => t.status == "pass")

/-- Python `failed = total_tests - passed`. -/
def failedCount (results : List TestResult) : Nat :=
  results.length - passedCount results

/-- Python `total_duration = sum(t.duration for t in test_results)`. -/
def totalDuration (results : List TestResult) : Int :=
  results.foldl (fun acc t => acc + t.duration) 0

/-- Python `f"{x:.1f}"` applied to an integral duration. -/
def fmtF1 (n : Int) : String := toString n ++ ".0"

/-- Fixed text of the step `<div>` before the first `status` interpolation. -/
def stepHtmlC1 : String := "\n                <div class=\"step "

/-- Fixed text between the two `status` interpolations. -/
def stepHtmlC2 : String := "\">\n                    <span class=\"step-icon "

/-- Fixed text between the second `status` and the `description`. -/
def stepHtmlC3 : String := "\"></span>\n                    <span>"

/-- Fixed text between the `description` and the `timestamp`. -/
def stepHtmlC4 : String := "</span>\n                    <span class=\"timestamp\">"

/-- Fixed text closing the step `<div>`. -/
def stepHtmlC5 : String := "</span>\n                </div>"

/-- The f-string rendering one recorded step (lines 446-451). -/
def stepHtml (s : StepRecord) : String :=
  stepHtmlC1 ++ s.status ++ stepHtmlC2 ++ s.status ++ stepHtmlC3 ++
    s.description ++ stepHtmlC4 ++ toString s.timestamp ++ stepHtmlC5

/-- The `steps_html` accumulation loop (lines 444-451):
`steps_html += f"..."` over `result.steps` in order. -/
def stepsHtml (steps : List StepRecord) : String :=
  steps.foldl (fun acc s => acc ++ stepHtml s) ""

/-- The f-string rendering one screenshot thumbnail (lines 456-460). -/
def screenshotHtml (relpath : String → String) (ss : ScreenshotRef) : String :=
  "\n                <div class=\"screenshot\">\n                    <img src=\"" ++
    relpath ss.path ++ "\" alt=\"" ++ ss.name ++ "\">\n                    <p>" ++
    ss.name ++ "</p>\n                </div>"

/-- The `screenshots_html` accumulation loop (lines 453-460). -/
def screenshotsHtml (relpath : String → String) (sss : List ScreenshotRef) : String :=
  sss.foldl (fun acc ss => acc ++ screenshotHtml relpath ss) ""

/-- The document head and style block, up to the `Generated:` stamp. -/
def htmlHead1 : String :=
  "<!DOCTYPE html>\n<html>\n<head>\n    <title>Visit Document Processor - Test Report</title>\n    <style>\n        body \x7b font-family: \x27Segoe UI\x27, Arial, sans-serif; margin: 20px; background: #f5f5f5; \x7d\n        .header \x7b background: linear-gradient(135deg, #1a5f7a, #2d8659); color: white; padding: 30px; border-radius: 10px; margin-bottom: 20px; \x7d\n        .header h1 \x7b margin: 0; \x7d\n        .summary \x7b display: flex; gap: 20px; margin-bottom: 20px; \x7d\n        .summary-card \x7b background: white; padding: 20px; border-radius: 10px; flex: 1; box-shadow: 0 2px 5px rgba(0,0,0,0.1); text-align: center; \x7d\n        .summary-card.pass \x7b border-left: 5px solid #28a745; \x7d\n        .summary-card.fail \x7b border-left: 5px solid #dc3545; \x7d\n        .summary-card h2 \x7b margin: 0; font-size: 36px; \x7d\n        .summary-card p \x7b margin: 5px 0 0; color: #666; \x7d\n        .test-case \x7b background: white; margin-bottom: 15px; border-radius: 10px; overflow: hidden; box-shadow: 0 2px 5px rgba(0,0,0,0.1); \x7d\n        .test-header \x7b padding: 15px 20px; cursor: pointer; display: flex; justify-content: space-between; align-items: center; \x7d\n        .test-header.pass \x7b background: #d4edda; \x7d\n        .test-header.fail \x7b background: #f8d7da; \x7d\n        .test-content \x7b padding: 20px; display: none; border-top: 1px solid #eee; \x7d\n        .test-content.show \x7b display: block; \x7d\n        .step \x7b padding: 10px; margin: 5px 0; border-radius: 5px; display: flex; align-items: center; gap: 10px; \x7d\n        .step.pass \x7b background: #e8f5e9; \x7d\n        .step.fail \x7b background: #ffebee; \x7d\n        .step-icon \x7b font-size: 18px; \x7d\n        .step-icon.pass::before \x7b content: \x27✓\x27; color: #28a745; \x7d\n        .step-icon.fail::before \x7b content: \x27✗\x27; color: #dc3545; \x7d\n        .screenshots \x7b display: flex; flex-wrap: wrap; gap: 10px; margin-top: 15px; \x7d\n        .screenshot \x7b max-width: 300px; border: 1px solid #ddd; border-radius: 5px; \x7d\n        .screenshot img \x7b width: 100%; border-radius: 5px 5px 0 0; \x7d\n        .screenshot p \x7b margin: 0; padding: 10px; font-size: 12px; background: #f9f9f9; \x7d\n        .duration \x7b color: #666; font-size: 14px; \x7d\n        .timestamp \x7b font-size: 12px; color: #999; \x7d\n    </style>\n    <script>\n        function toggleTest(id) \x7b\n            var content = document.getElementById(\x27content-\x27 + id);\n            content.classList.toggle(\x27show\x27);\n        \x7d\n    </script>\n</head>\n<body>\n    <div class=\"header\">\n        <h1>Visit Document Processor - Test Report</h1>\n        <p>Generated: "

/-- From the `Generated:` stamp up to the `Passed` count. -/
def htmlHead2 : String :=
  "</p>\n    </div>\n\n    <div class=\"summary\">\n        <div class=\"summary-card pass\">\n            <h2>"

/-- Between the `Passed` count and the `Failed` count. -/
def htmlMid1 : String :=
  "</h2>\n            <p>Passed</p>\n        </div>\n        <div class=\"summary-card fail\">\n            <h2>"

/-- Between the `Failed` count and the total duration. -/
def htmlMid2 : String :=
  "</h2>\n            <p>Failed</p>\n        </div>\n        <div class=\"summary-card\">\n            <h2>"

/-- Closes the summary section. -/
def htmlSummaryEnd : String :=
  "s</h2>\n            <p>Total Duration</p>\n        </div>\n    </div>\n"

/-- Closing tags appended after the loop (lines 475-477). -/
def htmlFoot : String := "\n</body>\n</html>"

/-- The f-string appended per test result (lines 462-473), for the
`i`-th result. -/
def testCaseHtml (relpath : String → String) (i : Nat) (r : TestResult) : String :=
  let ssHtml := screenshotsHtml relpath r.screenshots
  "\n    <div class=\"test-case\">\n        <div class=\"test-header " ++ r.status ++
    "\" onclick=\"toggleTest(" ++ toString i ++
    ")\">\n            <span><strong>" ++ r.name ++
    "</strong></span>\n            <span class=\"duration\">" ++ fmtF1 r.duration ++
    "s</span>\n        </div>\n        <div class=\"test-content\" id=\"content-" ++
    toString i ++ "\">\n            <h4>Steps:</h4>\n            " ++
    stepsHtml r.steps ++ "\n            " ++
    (if ssHtml == "" then ""
     else "<h4>Screenshots:</h4><div class=\x27screenshots\x27>" ++ ssHtml ++ "</div>") ++
    "\n        </div>\n    </div>"

/-- The `for i, result in enumerate(test_results)` accumulation loop. -/
def testCasesHtml (relpath : String → String) (results : List TestResult) : String :=
  results.enum.foldl (fun acc p => acc ++ testCaseHtml relpath p.1 p.2) ""

/-- Python `HTMLReporter._build_html(test_results, screenshots_dir)`. -/
def build_html (relpath : String → String) (nowStr : String)
    (results : List TestResult) : String :=
  htmlHead1 ++ nowStr ++ htmlHead2 ++ toString (passedCount results) ++ htmlMid1 ++
    toString (failedCount results) ++ htmlMid2 ++ fmtF1 (totalDuration results) ++
    htmlSummaryEnd ++ testCasesHtml relpath results ++ htmlFoot

/-! ## OllamaTextGenerator (src/automated_tester.py, lines 52-247)

HTTP traffic is outside the embedding: the result of the
`GET {base_url}/api/tags` probe enters as `getStatus` (`none` means the
request raised, `some code` its HTTP status), and the result of the
`POST {base_url}/api/generate` call enters as a `PostResult`.  The request
the code would issue is returned alongside the produced text so that its
URL and JSON body can be inspected.  `random.choice` enters as an
arbitrary index `ridx` reduced modulo the list length. -/

/-- The generator object: configured model, base URL, and the `available`
flag computed by `_check_availability` in `__init__`. -/
structure Ollama where
  model : String
  base_url : String
  available : Bool
deriving DecidableEq

/-- Python `OllamaTextGenerator._check_availability` (lines 60-68): false when the
requests library is missing; otherwise true exactly when the GET to
/api/tags returns status 200 (any exception yields false). -/
def check_availability (requestsAvailable : Bool) (getStatus : Option Nat) : Bool :=
  if requestsAvailable = false then false
  else
    match getStatus with
    | none => false
    | some code => code == 200

/-- Python `OllamaTextGenerator.__init__` (lines 55-58). -/
def mkOllama (model base_url : String) (requestsAvailable : Bool)
    (getStatus : Option Nat) : Ollama :=
  { model := model, base_url := base_url,
    available := check_availability requestsAvailable getStatus }

/-- The JSON body and URL of the POST issued by `generate` (lines 76-85). -/
structure PostRequest where
  url : String
  model : String
  prompt : String
  stream : Bool
  num_predict : Nat
deriving DecidableEq

/-- The observable part of a POST response: HTTP status and the
`"response"` field of the JSON body (`.get("response", "")`). -/
structure PostResponse where
  status : Nat
  response : String
deriving DecidableEq

/-- Outcome of the POST call: it raised, or returned a response. -/
inductive PostResult where
  | raised : PostResult
  | ok : PostResponse → PostResult
deriving DecidableEq

/-- Substring test on character lists (Python `pat in s`). -/
def containsSub (p : List Char) : List Char → Bool
  | [] => p.isPrefixOf []
  | c :: t => p.isPrefixOf (c :: t) || containsSub p t

/-- Python `pat in prompt.lower()` for a lowercase pattern `pat`. -/
def promptContains (prompt pat : String) : Bool :=
  containsSub pat.data (prompt.data.map Char.toLower)

/-- Python `random.choice(l)` with the random draw entering as the index `i`. -/
def random_choice (l : List String) (i : Nat) : String :=
  l.getD (i % l.length) ""

/-- Python `FALLBACK_RESIDENCE_DESCRIPTIONS` (lines 222-231). -/
def FALLBACK_RESIDENCE_DESCRIPTIONS : List String := [
  "Single story brick home with white trim outlining the windows and front door. Two-car attached garage on the left side. Front yard is well-maintained with mature landscaping.",
  "Two story frame house with tan siding and brown trim around windows. One-car detached garage in back. Front yard has small flower bed and trimmed bushes.",
  "Apartment complex, unit on second floor with exterior access. Beige stucco exterior with white window frames. Parking lot was half full upon arrival.",
  "Single story home with brown brick exterior and cream-colored trim. Carport on right side, no enclosed garage. Small front porch with concrete steps.",
  "Ranch-style home with beige brick and dark green trim around windows and front door. Two-car garage attached on left. Lawn recently mowed, quiet residential street.",
  "Multi-family dwelling, ground floor unit. Red brick exterior with white trim around windows. Shared parking area in front. Building appears well-maintained.",
  "Single story frame house with gray siding and white window trim. Carport on left side, chain link fence around property. Small fenced backyard visible from front.",
  "Two story townhouse with stone and stucco exterior. Black trim around windows. One-car garage on ground level. Small landscaped front area."]

/-- Python `FALLBACK_OBSERVED_DESCRIPTIONS` (lines 233-238). -/
def FALLBACK_OBSERVED_DESCRIPTIONS : List String := [
  "P answered the front door. Officer requested consent to enter the home, P agreed. The home opens to a living room with a sectional couch and TV mounted on the wall. P\x27s bedroom is located down the hallway on the right - queen bed was made, clothes in closet, nightstand with lamp. P escorted officer to the kitchen which had granite countertops and gas stove. White side-by-side refrigerator contained milk, eggs, lunch meat, and various condiments. Freezer had frozen vegetables and ice cream. Officer asked P to escort to the exit. No violations noted.",
  "P came to the door after second knock. Officer asked for consent to enter, P agreed. Home opens to a foyer leading to living room. P\x27s bedroom is the first door on the left - full bed made, dresser with personal items, closet organized. P walked officer to kitchen area with electric stove and dishwasher. Stainless steel French door refrigerator contained various food items including fruits, vegetables, and beverages. Officer asked P to escort to exit. No violations noted.",
  "P answered door promptly. Consent to enter was given. Home opens directly to living room with couch and recliner. P\x27s sleeping area is in back bedroom - twin bed unmade, clothes on floor, small TV on dresser. P escorted to kitchen which was clean with basic appliances. Black top-freezer refrigerator contained leftovers, milk, and condiments. Officer requested P escort to door. No violations noted.",
  "P opened door after doorbell ring. Officer requested and received consent to enter. Home opens to combined living/dining area. P indicated bedroom is down hallway - queen bed with blue comforter, nightstand, closet with hanging clothes. Kitchen had tile floor and white cabinets. White side-by-side refrigerator well-stocked with groceries. P escorted officer out. No violations noted."]

/-- Python `FALLBACK_RED_FLAG_DESCRIPTIONS` (lines 240-247). -/
def FALLBACK_RED_FLAG_DESCRIPTIONS : List String := [
  "Found three empty Bud Light cans on the bedroom nightstand next to an open bottle of Jack Daniels whiskey approximately half full.",
  "Observed a glass pipe with burnt residue and small plastic baggies with white powder residue on the coffee table in the living room.",
  "Located a black semi-automatic handgun in the top drawer of the bedroom dresser. Magazine was inserted.",
  "Found a large hunting knife with approximately 8-inch blade under the mattress in P\x27s bedroom.",
  "Female present in living room had visible bruising on left arm and appeared nervous. She stated she fell but avoided eye contact when questioned.",
  "Children\x27s toys and clothing observed in the bedroom closet. P has active no-contact order with minor children."]

/-- Python `OllamaTextGenerator._fallback_text` (lines 93-101). -/
def fallback_text (prompt : String) (ridx : Nat) : String :=
  if promptContains prompt "residence" || promptContains prompt "home" then
    random_choice FALLBACK_RESIDENCE_DESCRIPTIONS ridx
  else if promptContains prompt "observed" then
    random_choice FALLBACK_OBSERVED_DESCRIPTIONS ridx
  else if promptContains prompt "red flag" then
    random_choice FALLBACK_RED_FLAG_DESCRIPTIONS ridx
  else "Test text entry."

/-- Python `OllamaTextGenerator.generate` (lines 70-91).  Returns the POST request
issued (none when the service is unavailable and no request is made)
together with the produced text.  A raised POST exception is caught and,
like a non-200 status, falls through to the fallback text; the function is
total, so no exception escapes. -/
def generate (g : Ollama) (post : PostResult) (prompt : String)
    (max_tokens ridx : Nat) : Option PostRequest × String :=
  if g.available = false then (none, fallback_text prompt ridx)
  else
    let req : PostRequest :=
      { url := g.base_url ++ "/api/generate", model := g.model, prompt := prompt,
        stream := false, num_predict := max_tokens }
    match post with
    | .raised => (some req, fallback_text prompt ridx)
    | .ok r =>
        if r.status == 200 then (some req, r.response.trim)
        else (some req, fallback_text prompt ridx)

/-- The f-string prompt of `generate_residence_description` (lines 105-117). -/
def residence_prompt (address : String) : String :=
  "You are a probation officer describing a home\x27s EXTERIOR only.\nAddress: " ++ address ++
  "\n\nDescribe in 2-3 sentences:\n- House type (single story, two story, apartment, etc.)\n- Exterior material (brick, siding, stucco)\n- Trim color around windows and doors\n- Garage type (one-car, two-car, carport, none)\n- Front yard condition\n\nExample: \"Single story brick home with white trim outlining the windows and front door. Two-car attached garage on the left side. Front yard is well-maintained with mature landscaping.\"\n\nKeep it under 60 words. Exterior only - do NOT mention entering the home. Just the description, no introduction."

/-- Python `OllamaTextGenerator.generate_residence_description` (lines 103-118). -/
def generate_residence_description (g : Ollama) (post : PostResult) (ridx : Nat)
    (address : String) : Option PostRequest × String :=
  generate g post (residence_prompt address) 120 ridx

/-- The FTR prompt of `generate_observed_description` (lines 123-130). -/
def promptObservedFTR : String :=
  "You are a probation officer documenting an FTR (Failed to Report) home visit.\n\nWrite 2-3 sentences describing:\n- Knocked on door, rang doorbell (note if doorbell camera present)\n- No response after waiting\n- Left orange door knocker with contact information\n\nProfessional tone. Just the observation, no introduction."

/-- The "Not Home" prompt (lines 135-142). -/
def promptObservedNotHome : String :=
  "You are a probation officer documenting an unsuccessful home visit where no one was home.\n\nWrite 2-3 sentences describing:\n- Knocked on door, rang doorbell (note if doorbell camera present)\n- No response after multiple attempts\n- Left door knocker with contact information\n\nProfessional tone. Just the observation, no introduction."

/-- The "Wrong Address" prompt (lines 144-151). -/
def promptObservedWrongAddress : String :=
  "You are a probation officer documenting an unsuccessful home visit - wrong address.\n\nWrite 2-3 sentences describing:\n- Knocked on door, someone answered who was NOT the probationer\n- Confirmed this was not the correct residence for the probationer\n- Departed and documented the discrepancy\n\nProfessional tone. Just the observation, no introduction."

/-- The "P Denied Access" prompt (lines 153-160). -/
def promptObservedDenied : String :=
  "You are a probation officer documenting an unsuccessful home visit where probationer denied entry.\n\nWrite 2-3 sentences describing:\n- Knocked on door, probationer (P) answered\n- Officer asked for consent to enter the home\n- P refused to allow entry, visit terminated\n\nProfessional tone. Just the observation, no introduction."

/-- The catch-all unsuccessful prompt (lines 162-163). -/
def promptObservedOther : String :=
  "You are a probation officer documenting an unsuccessful/cancelled home visit.\nWrite 2-3 sentences. Professional tone. Just the observation, no introduction."

/-- The successful-visit prompt (lines 167-180). -/
def promptObservedSuccessful : String :=
  "You are a probation officer documenting a SUCCESSFUL home visit with detailed observations.\n\nWrite a thorough description (5-7 sentences) including ALL of the following in order:\n1. Who answered the door (P = probationer)\n2. Officer asked P for consent to enter the home, P agreed\n3. Describe entering - \"The home opens to a [living room/foyer/etc.]\"\n4. P\x27s bedroom location and brief description (bed made/unmade, clothes, personal items)\n5. P escorted officer to the kitchen - describe kitchen briefly\n6. Describe refrigerator (color like white/black/stainless steel, type like side-by-side/French door), describe contents (food items, beverages)\n7. Officer asked P to escort to exit, no violations noted\n\nExample flow: \"P answered the front door. Officer requested consent to enter the home, P agreed. The home opens to a living room with a sectional couch and TV mounted on the wall. P\x27s bedroom is located down the hallway on the right - queen bed was made, clothes in closet, nightstand with lamp. P escorted officer to the kitchen which had granite countertops and gas stove. White side-by-side refrigerator contained milk, eggs, lunch meat, and various condiments. Freezer had frozen vegetables and ice cream. Officer asked P to escort to the exit. No violations noted.\"\n\nProfessional tone. Just the observation, no introduction or headers."

/-- Python `OllamaTextGenerator.generate_observed_description` (lines 120-181),
with its branch-specific prompts and token budgets. -/
def generate_observed_description (g : Ollama) (post : PostResult) (ridx : Nat)
    (is_successful : Bool) (visit_type reason : String) : Option PostRequest × String :=
  if visit_type == "FTR" then generate g post promptObservedFTR 100 ridx
  else if is_successful = false then
    (if reason == "Not Home" then generate g post promptObservedNotHome 120 ridx
     else if reason == "Wrong Address" then generate g post promptObservedWrongAddress 120 ridx
     else if reason == "P Denied Access" then generate g post promptObservedDenied 120 ridx
     else generate g post promptObservedOther 120 ridx)
  else generate g post promptObservedSuccessful 300 ridx

/-- The "Alcohol" prompt of `generate_red_flag_description` (lines 186-190). -/
def promptFlagAlcohol : String :=
  "Describe finding alcohol during a probation home visit.\nInclude: exact location found (kitchen counter, bedroom nightstand, living room coffee table),\ntype of alcohol (beer cans, liquor bottles, wine), quantity, and brand if visible.\nExample: \"Found three empty Bud Light cans on the bedroom nightstand next to an open bottle of Jack Daniels whiskey approximately half full.\"\n1-2 sentences. Professional tone."

/-- The "Drugs" prompt (lines 192-195). -/
def promptFlagDrugs : String :=
  "Describe finding drug paraphernalia during a probation home visit.\nInclude: exact location found, specific items seen (pipe, rolling papers, residue, baggies).\nExample: \"Observed a glass pipe with burnt residue and small plastic baggies with white powder residue on the coffee table in the living room.\"\n1-2 sentences. Professional tone."

/-- The "Guns" prompt (lines 197-200). -/
def promptFlagGuns : String :=
  "Describe finding a firearm during a probation home visit.\nInclude: exact location found, type of firearm, whether loaded/unloaded if visible.\nExample: \"Located a black semi-automatic handgun in the top drawer of the bedroom dresser. Magazine was inserted.\"\n1-2 sentences. Professional tone."

/-- The "Knives" prompt (lines 202-205). -/
def promptFlagKnives : String :=
  "Describe finding prohibited weapons/knives during a probation home visit.\nInclude: exact location found, type of knife/weapon, approximate size.\nExample: \"Found a large hunting knife with approximately 8-inch blade under the mattress in P\x27s bedroom.\"\n1-2 sentences. Professional tone."

/-- The "IP" prompt (lines 207-210). -/
def promptFlagIP : String :=
  "Describe observing an injured party during a probation home visit.\nInclude: who was injured, visible injuries, their demeanor.\nExample: \"Female present in living room had visible bruising on left arm and appeared nervous. She stated she fell but avoided eye contact when questioned.\"\n1-2 sentences. Professional tone."

/-- The "Other" prompt (lines 212-215). -/
def promptFlagOther : String :=
  "Describe finding evidence of prohibited contact or other violation during a probation home visit.\nInclude: what was found, exact location, why it\x27s concerning.\nExample: \"Children\x27s toys and clothing observed in the bedroom closet. P has active no-contact order with minor children.\"\n1-2 sentences. Professional tone."

/-- Python `prompts.get(flag_type, prompts["Other"])` (line 217). -/
def red_flag_prompt (flag_type : String) : String :=
  if flag_type == "Alcohol" then promptFlagAlcohol
  else if flag_type == "Drugs" then promptFlagDrugs
  else if flag_type == "Guns" then promptFlagGuns
  else if flag_type == "Knives" then promptFlagKnives
  else if flag_type == "IP" then promptFlagIP
  else promptFlagOther

/-- Python `OllamaTextGenerator.generate_red_flag_description` (lines 183-218). -/
def generate_red_flag_description (g : Ollama) (post : PostResult) (ridx : Nat)
    (flag_type : String) : Option PostRequest × String :=
  generate g post (red_flag_prompt flag_type) 100 ridx

/-! ## Itinerary generator (src/generate_test_itinerary.py)

The random module enters as oracles: each `random.choice` / `random.randint`
draw is an arbitrary natural number reduced into the required range, and the
`random.random() < 0.7` float coin of `get_random_address` enters as a
boolean.  `get_visit_type` scans float weights cumulatively; which type the
float draw lands on is abstracted to an oracle index into `VISIT_TYPES`.
The openpyxl worksheet is modelled as the list of cell-value writes the
function performs (styling-only writes such as fonts and borders carry no
cell values and are not part of the model). -/

/-- Python `DFW_ADDRESSES` (lines 13-88): (street, city, zip). -/
def DFW_ADDRESSES : List (String × String × String) := [
  ("1823 Mockingbird Ln", "Dallas", "75235"),
  ("4521 Live Oak St", "Dallas", "75204"),
  ("2910 Maple Ave", "Dallas", "75201"),
  ("6734 Greenville Ave", "Dallas", "75231"),
  ("3302 Knox St", "Dallas", "75205"),
  ("1456 Canton St", "Dallas", "75201"),
  ("5612 Gaston Ave", "Dallas", "75214"),
  ("2201 Main St", "Dallas", "75201"),
  ("4015 Cedar Springs Rd", "Dallas", "75219"),
  ("7823 Forest Ln", "Dallas", "75230"),
  ("2134 W 7th St", "Fort Worth", "76107"),
  ("4521 Camp Bowie Blvd", "Fort Worth", "76107"),
  ("1823 Magnolia Ave", "Fort Worth", "76104"),
  ("3456 University Dr", "Fort Worth", "76109"),
  ("5612 Hulen St", "Fort Worth", "76132"),
  ("2901 Crockett St", "Fort Worth", "76107"),
  ("1234 Henderson St", "Fort Worth", "76102"),
  ("4567 Bryant Irvin Rd", "Fort Worth", "76132"),
  ("3210 Cleburne Rd", "Fort Worth", "76110"),
  ("6789 Granbury Rd", "Fort Worth", "76133"),
  ("1456 Cooper St", "Arlington", "76013"),
  ("2345 S Collins St", "Arlington", "76010"),
  ("4567 W Pioneer Pkwy", "Arlington", "76013"),
  ("3234 Matlock Rd", "Arlington", "76015"),
  ("5678 Green Oaks Blvd", "Arlington", "76017"),
  ("1890 N Watson Rd", "Arlington", "76006"),
  ("2456 E Lamar Blvd", "Arlington", "76006"),
  ("3789 Little Rd", "Arlington", "76016"),
  ("2345 N Belt Line Rd", "Irving", "75061"),
  ("4567 MacArthur Blvd", "Irving", "75063"),
  ("1234 W Airport Fwy", "Irving", "75062"),
  ("5678 N Story Rd", "Irving", "75061"),
  ("3456 Rochelle Rd", "Irving", "75062"),
  ("1234 W Walnut St", "Garland", "75040"),
  ("4567 N Shiloh Rd", "Garland", "75044"),
  ("2345 Broadway Blvd", "Garland", "75043"),
  ("5678 N Garland Ave", "Garland", "75040"),
  ("3456 W Buckingham Rd", "Garland", "75042"),
  ("2345 W 15th St", "Plano", "75075"),
  ("4567 Coit Rd", "Plano", "75024"),
  ("1234 N Central Expy", "Plano", "75074"),
  ("5678 Preston Rd", "Plano", "75024"),
  ("3456 Legacy Dr", "Plano", "75024"),
  ("1234 N Galloway Ave", "Mesquite", "75149"),
  ("4567 E Scyene Rd", "Mesquite", "75149"),
  ("2345 Military Pkwy", "Mesquite", "75150"),
  ("1234 S Carrier Pkwy", "Grand Prairie", "75051"),
  ("4567 W Jefferson St", "Grand Prairie", "75051"),
  ("2345 N Great Southwest Pkwy", "Grand Prairie", "75050"),
  ("1234 E Belt Line Rd", "Carrollton", "75006"),
  ("4567 N Josey Ln", "Carrollton", "75007"),
  ("2345 Old Denton Rd", "Carrollton", "75007"),
  ("1234 W University Dr", "Denton", "76201"),
  ("4567 N Locust St", "Denton", "76201"),
  ("2345 Teasley Ln", "Denton", "76210")]

/-- Python `APARTMENT_ADDRESSES` (lines 91-100):
(street base, city, zip, apartment number range). -/
def APARTMENT_ADDRESSES : List (String × String × String × Nat × Nat) := [
  ("500 N Akard St Apt", "Dallas", "75201", 101, 2450),
  ("1200 Main St Apt", "Dallas", "75202", 201, 1820),
  ("2500 Victory Park Ln Unit", "Dallas", "75219", 1001, 3540),
  ("800 W 7th St Apt", "Fort Worth", "76102", 101, 890),
  ("1500 S University Dr Apt", "Fort Worth", "76107", 201, 456),
  ("400 E Abram St Apt", "Arlington", "76010", 101, 324),
  ("600 N Center St Unit", "Arlington", "76011", 101, 256),
  ("300 Las Colinas Blvd Apt", "Irving", "75039", 501, 2840)]

/-- Python `FIRST_NAMES` (lines 103-112). -/
def FIRST_NAMES : List String := [
  "JAMES", "JOHN", "ROBERT", "MICHAEL", "DAVID", "WILLIAM", "RICHARD", "JOSEPH",
  "THOMAS", "CHRISTOPHER", "CHARLES", "DANIEL", "MATTHEW", "ANTHONY", "MARK",
  "DONALD", "STEVEN", "PAUL", "ANDREW", "JOSHUA", "KENNETH", "KEVIN", "BRIAN",
  "GEORGE", "TIMOTHY", "RONALD", "EDWARD", "JASON", "JEFFREY", "RYAN",
  "MARY", "PATRICIA", "JENNIFER", "LINDA", "ELIZABETH", "BARBARA", "SUSAN",
  "JESSICA", "SARAH", "KAREN", "LISA", "NANCY", "BETTY", "MARGARET", "SANDRA",
  "ASHLEY", "KIMBERLY", "EMILY", "DONNA", "MICHELLE", "DOROTHY", "CAROL",
  "AMANDA", "MELISSA", "DEBORAH", "STEPHANIE", "REBECCA", "SHARON", "LAURA"]

/-- Python `LAST_NAMES` (lines 114-122). -/
def LAST_NAMES : List String := [
  "SMITH", "JOHNSON", "WILLIAMS", "BROWN", "JONES", "GARCIA", "MILLER", "DAVIS",
  "RODRIGUEZ", "MARTINEZ", "HERNANDEZ", "LOPEZ", "GONZALEZ", "WILSON", "ANDERSON",
  "THOMAS", "TAYLOR", "MOORE", "JACKSON", "MARTIN", "LEE", "PEREZ", "THOMPSON",
  "WHITE", "HARRIS", "SANCHEZ", "CLARK", "RAMIREZ", "LEWIS", "ROBINSON",
  "WALKER", "YOUNG", "ALLEN", "KING", "WRIGHT", "SCOTT", "TORRES", "NGUYEN",
  "HILL", "FLORES", "GREEN", "ADAMS", "NELSON", "BAKER", "HALL", "RIVERA",
  "CAMPBELL", "MITCHELL", "CARTER", "ROBERTS", "GOMEZ", "PHILLIPS", "EVANS"]

/-- Python `VISIT_TYPES` (lines 125-133); the float weights are recorded in
hundredths.  They only shape the distribution of the float draw in
`get_visit_type`, which the embedding abstracts to an oracle index. -/
def VISIT_TYPES : List (String × Nat) := [
  ("AM Intake", 25), ("PM Intake", 20), ("FTR", 25), ("HR", 10),
  ("HR AM", 8), ("HR PM", 7), ("CM", 5)]

/-- Python `OFFICER_PAIRS` (lines 136-142). -/
def OFFICER_PAIRS : List (String × String) := [
  ("JOHNSON, SARAH", "MARTINEZ, DAVID"),
  ("SMITH, MICHAEL", "GARCIA, JENNIFER"),
  ("WILLIAMS, ROBERT", "BROWN, ASHLEY"),
  ("DAVIS, THOMAS", "RODRIGUEZ, MARIA"),
  ("WILSON, JAMES", "ANDERSON, LISA")]

/-- Python `generate_name` (lines 145-147): `f"{choice(LAST_NAMES)}, {choice(FIRST_NAMES)}"`,
the two `random.choice` draws entering as the index pair `d`. -/
def generate_name (d : Nat × Nat) : String :=
  LAST_NAMES.getD (d.1 % LAST_NAMES.length) "" ++ ", " ++
    FIRST_NAMES.getD (d.2 % FIRST_NAMES.length) ""

/-- The area-code pool local to `generate_phone` (line 152). -/
def AREA_CODES : List String := ["214", "972", "469", "817", "682", "940"]

/-- Python `generate_phone` (lines 150-153): the `choice` and two `randint` draws
enter as `d`; `randint(lo, hi)` becomes `lo + draw % (hi - lo + 1)`. -/
def generate_phone (d : Nat × Nat × Nat) : String :=
  "(" ++ AREA_CODES.getD (d.1 % AREA_CODES.length) "" ++ ") " ++
    toString (200 + d.2.1 % 800) ++ "-" ++ toString (1000 + d.2.2 % 9000)

/-- One batch of draws for `get_random_address`: the `random.random() < 0.7`
coin, the `random.choice` index, and the apartment-number `randint` draw. -/
structure AddrDraw where
  isRegular : Bool
  idx : Nat
  aptDraw : Nat

/-- Python `get_random_address` (lines 156-165). -/
def get_random_address (d : AddrDraw) : String × String × String :=
  if d.isRegular then
    DFW_ADDRESSES.getD (d.idx % DFW_ADDRESSES.length) ("", "", "")
  else
    let a := APARTMENT_ADDRESSES.getD (d.idx % APARTMENT_ADDRESSES.length) ("", "", "", 0, 0)
    (a.1 ++ " " ++ toString (a.2.2.2.1 + d.aptDraw % (a.2.2.2.2 - a.2.2.2.1 + 1)),
     a.2.1, a.2.2.1)

/-- Python `get_visit_type` (lines 168-176): returns some member of `VISIT_TYPES`
selected through the float draw, abstracted to the oracle index `r`. -/
def get_visit_type (r : Nat) : String :=
  (VISIT_TYPES.getD (r % VISIT_TYPES.length) ("", 0)).1

/-- Python `strftime("%I:%M %p")` of a time given in minutes: zero-padded 12-hour
clock with AM/PM.  The itinerary start times are
`strptime("8:00 AM") + timedelta(minutes=30*i)` rendered this way. -/
def pad2 (n : Nat) : String :=
  if n < 10 then "0" ++ toString n else toString n

/-- Render minutes-since-midnight in the `%I:%M %p` format. -/
def fmt12 (totalMin : Nat) : String :=
  let h := totalMin / 60 % 24
  let m := totalMin % 60
  pad2 (if h % 12 == 0 then 12 else h % 12) ++ ":" ++ pad2 m ++ " " ++
    (if h < 12 then "AM" else "PM")

/-- The random draws one data row of `generate_itinerary` consumes: the
successive `generate_name` draws of the defendant redraw loop (a finite
prefix of the RNG stream; an execution that leaves this prefix is a run of
the unbounded `while` loop the model cannot exhibit and is reported as
`none`), the phone draws, the successive `get_random_address` draws of the
bounded address redraw loop, and the visit-type draw. -/
structure RowDraw where
  nameDraws : List (Nat × Nat)
  phoneDraw : Nat × Nat × Nat
  addrDraws : Nat → AddrDraw
  typeDraw : Nat

/-- The defendant redraw loop (lines 234-237): keep drawing names until one
is not in `used`; the first fresh name produced by the draw prefix, if any. -/
def pickFreshName (draws : List (Nat × Nat)) (used : List String) : Option String :=
  (draws.map generate_name).find? (fun nm => !used.contains nm)

/-- The address redraw loop (lines 252-257): redraw while the street is in
`used` and fewer than 50 redraws have happened; after the 50th redraw the
current (possibly duplicate) address is kept. -/
def pickAddrLoop (cands : Nat → String × String × String) (used : List String) :
    Nat → Nat → String × String × String
  | 0, k => cands k
  | fuel + 1, k =>
      if used.contains (cands k).1 then pickAddrLoop cands used fuel (k + 1)
      else cands k

/-- The full address selection of one row: initial draw plus at most 50
redraws. -/
def pickAddress (cands : Nat → String × String × String) (used : List String) :
    String × String × String :=
  pickAddrLoop cands used 50 0

/-- The values of one generated data row, in column order (columns 1-10). -/
structure RowResult where
  loc : Nat
  unit : String
  defendant : String
  officer : String
  starts : String
  phone : String
  address : String
  city : String
  zip : String
  comment : String
deriving DecidableEq

/-- The data-row loop of `generate_itinerary` (lines 223-268), generating
`count` rows starting at 0-based visit index `i` with the accumulated
`used_names` / `used_addresses` sets (modelled as lists).  `none` means
some row's defendant redraw loop ran past its modelled draw prefix. -/
def genVisits (oracle : Nat → RowDraw) (pair : String × String) :
    Nat → Nat → List String → List String → Option (List RowResult)
  | _, 0, _, _ => some []
  | i, count + 1, usedN, usedA =>
      match pickFreshName (oracle i).nameDraws usedN with
      | none => none
      | some defendant =>
          let a := pickAddress (fun k => get_random_address ((oracle i).addrDraws k)) usedA
          let r : RowResult :=
            { loc := i + 1,
              unit := String.singleton (Char.ofNat (66 + i)),
              defendant := defendant,
              officer := if i % 2 == 0 then pair.1 else pair.2,
              starts := fmt12 (480 + 30 * i),
              phone := generate_phone (oracle i).phoneDraw,
              address := a.1, city := a.2.1, zip := a.2.2,
              comment := get_visit_type (oracle i).typeDraw }
          match genVisits oracle pair (i + 1) count (defendant :: usedN) (a.1 :: usedA) with
          | none => none
          | some rest => some (r :: rest)

/-- A cell value written by the generator: text or an integer. -/
inductive CellVal where
  | str : String → CellVal
  | num : Nat → CellVal
deriving DecidableEq

/-- One `ws.cell(row=..., column=..., value=...)` write. -/
structure CellWrite where
  row : Nat
  col : Nat
  val : CellVal
deriving DecidableEq

/-- Python `headers` (lines 206-207). -/
def headers : List String :=
  ["Loc", "Unit", "Defendant", "Officer", "Starts",
   "Cell Phone", "Address", "City", "Zip", "Comment"]

/-- Python `header_row = 7` (line 209). -/
def header_row : Nat := 7

/-- The header writes (lines 210-214): `enumerate(headers, 1)` into row 7. -/
def headerWrites : List CellWrite :=
  headers.enum.map (fun p => { row := header_row, col := p.1 + 1, val := .str p.2 })

/-- The ten value writes of the `i`-th (0-based) data row
(lines 224-264): row `header_row + 1 + i`, columns 1-10 in order. -/
def rowWrites (i : Nat) (r : RowResult) : List CellWrite :=
  [{ row := header_row + 1 + i, col := 1, val := .num r.loc },
   { row := header_row + 1 + i, col := 2, val := .str r.unit },
   { row := header_row + 1 + i, col := 3, val := .str r.defendant },
   { row := header_row + 1 + i, col := 4, val := .str r.officer },
   { row := header_row + 1 + i, col := 5, val := .str r.starts },
   { row := header_row + 1 + i, col := 6, val := .str r.phone },
   { row := header_row + 1 + i, col := 7, val := .str r.address },
   { row := header_row + 1 + i, col := 8, val := .str r.city },
   { row := header_row + 1 + i, col := 9, val := .str r.zip },
   { row := header_row + 1 + i, col := 10, val := .str r.comment }]

/-- Python `officer_pair = random.choice(OFFICER_PAIRS)` when the argument is
`None` (lines 193-194), the draw entering as `pairDraw`. -/
def resolvePair (officer_pair : Option (String × String)) (pairDraw : Nat) : String × String :=
  match officer_pair with
  | some p => p
  | none => OFFICER_PAIRS.getD (pairDraw % OFFICER_PAIRS.length) ("", "")

/-- Python `generate_itinerary(num_visits, output_path, officer_pair)` (lines
179-278) as the list of cell-value writes it performs on the workbook it
then saves: the header row followed by the data rows. -/
def generate_itinerary (num_visits : Nat) (oracle : Nat → RowDraw)
    (officer_pair : Option (String × String)) (pairDraw : Nat) :
    Option (List CellWrite) :=
  (genVisits oracle (resolvePair officer_pair pairDraw) 0 num_visits [] []).map
    (fun rows => headerWrites ++ rows.enum.flatMap (fun p => rowWrites p.1 p.2))

/-- A concrete oracle: always draw name pair (i, i) for row i as the only
modelled draw, always draw the first regular address, phone draws 0,
visit-type draw 0. -/
def dupOracle : Nat → RowDraw :=
  fun i => { nameDraws := [(i, i)], phoneDraw := (0, 0, 0),
             addrDraws := fun _ => { isRegular := true, idx := 0, aptDraw := 0 },
             typeDraw := 0 }

/-- The two rows `generate_itinerary` produces under `dupOracle`: the
second row exhausts its 50 address redraws (every draw yields the street
already used by the first row) and keeps the duplicate address. -/
def dupRows : List RowResult := [
  { loc := 1, unit := "B", defendant := "SMITH, JAMES", officer := "OFFICER, A",
    starts := "08:00 AM", phone := "(214) 200-1000",
    address := "1823 Mockingbird Ln", city := "Dallas", zip := "75235",
    comment := "AM Intake" },
  { loc := 2, unit := "C", defendant := "JOHNSON, JOHN", officer := "OFFICER, B",
    starts := "08:30 AM", phone := "(214) 200-1000",
    address := "1823 Mockingbird Ln", city := "Dallas", zip := "75235",
    comment := "AM Intake" }]


/-! ## run_macro and ScreenshotCapture.capture (src/automated_tester.py) -/

/-- Python `VisitDocumentTester.run_macro` (lines 574-581), with the COM call
outcome entering as `outcome`.  The first component is the list of macro
invocations performed (the single `Application.Run(macro_name)` call); the
second is the return value: `True` on success, `False` when the call
raised (the exception is caught, only printed). -/
def runMacroModel (name : String) (outcome : Except String Unit) : List String × Bool :=
  ([name],
   match outcome with
   | .ok _ => true
   | .error _ => false)

/-- One entry of `ScreenshotCapture.screenshots` (lines 306-311). -/
structure ScreenshotMeta where
  filename : String
  path : String
  name : String
  timestamp : String
deriving DecidableEq

/-- The mutable state of a `ScreenshotCapture` object. -/
structure CaptureState where
  screenshot_count : Nat
  screenshots : List ScreenshotMeta
deriving DecidableEq

/-- Python `f"{n:03d}"`. -/
def pad3 (n : Nat) : String :=
  if n < 10 then "00" ++ toString n
  else if n < 100 then "0" ++ toString n
  else toString n

/-- Python `ScreenshotCapture.capture` (lines 290-315).  The mss grab-and-encode
block outcome enters as `grab`; the two `datetime.now()` stamps enter as
`timeStr` (`%H%M%S`) and `isoStr`.  Returns the new state and the path, or
`none` when the library is unavailable or the capture raised (the
exception is caught and only printed; nothing is appended on failure,
though the counter has already been incremented). -/
def capture (outputDir : String) (s : CaptureState) (screenshotAvailable : Bool)
    (grab : Except String Unit) (name timeStr isoStr : String) :
    CaptureState × Option String :=
  if screenshotAvailable = false then (s, none)
  else
    let count := s.screenshot_count + 1
    let filename := pad3 count ++ "_" ++ name ++ "_" ++ timeStr ++ ".png"
    let filepath := outputDir ++ "/" ++ filename
    let s1 := { s with screenshot_count := count }
    match grab with
    | .error _ => (s1, none)
    | .ok _ =>
        ({ s1 with screenshots := s1.screenshots ++
            [{ filename := filename, path := filepath, name := name, timestamp := isoStr }] },
         some filepath)

/-! ## Execution order of a run (claim about main / setup / scenario_normal_day)

The run is modelled as the trace of external actions it performs, in
program order.  `_fill_visit` walks the rows of the externally-created
"Visit Sheet" matching on the labels it finds in column 1; the label
sequence of each visit section enters as the oracle `labels`.  Every
action `_fill_visit(n, ...)` performs (cell writes, text generation and
typing, macro invocations of that visit's buttons) is tagged with the
visit number `n`. -/

/-- An action performed inside `_fill_visit` for one visit. -/
inductive VisitAct where
  | setCellA : String → VisitAct
  | genTextA : String → VisitAct
  | typeTextA : VisitAct
  | macroA : String → VisitAct
deriving DecidableEq

/-- An event of the run's trace. -/
inductive Event where
  | openWorkbookEv : Event
  | macroEv : String → Event
  | actEv : String → Event
  | visitEv : Nat → VisitAct → Event
  | screenshotEv : String → Event
  | writeReportEv : Event
deriving DecidableEq

/-- Python `VisitDocumentTester.step(description, action_func)` with the default
`screenshot=True` (lines 597-622): the action's events followed by the
screenshot capture. -/
def stepTr (description : String) (acts : List Event) : List Event :=
  acts ++ [Event.screenshotEv description]

/-- The actions `_fill_visit` performs for one encountered row label
(lines 1002-1148), given the decided outcome, the red-flag and
vehicle-count test configuration.  Labels other than the recognized ones
produce nothing. -/
def fillVisitLabelActs (is_successful force_red_flag : Bool) (vehicle_count : Nat)
    (label : String) : List VisitAct :=
  if label == "Residents:" then
    (if is_successful then [.setCellA "Residents"] else [])
  else if label == "Description of Residence:" then
    [.genTextA "residence", .typeTextA]
  else if label == "Consent to Enter Home:" then
    [.setCellA "Consent to Enter Home"]
  else if label == "Observed:" then
    [.genTextA "observed", .typeTextA]
  else if label == "Vehicles:" then
    (if vehicle_count == 0 then [.macroA "NoVehiclesNoted"]
     else (List.range vehicle_count).flatMap
       (fun v => (if v ≥ 2 then [.macroA "AddVehicleRow"] else []) ++
         [.setCellA "Vehicle plate", .setCellA "Vehicle color",
          .setCellA "Vehicle make", .setCellA "Vehicle model"]))
  else if label == "Red Flags:" then
    (if force_red_flag && is_successful then
      [.setCellA "Red Flags", .macroA "ToggleRedFlagsSection",
       .genTextA "red flag", .typeTextA, .setCellA "Red flag checkbox"]
     else [])
  else if label == "Arrived:" then
    [.setCellA "Arrived", .setCellA "Departed"]
  else if label == "Outcome:" then
    [.setCellA "Outcome"]
  else []

/-- The label loop of `_fill_visit` (lines 1002-1148): process the labels
in sheet order, stopping after "Outcome:" (the loop `break`s there). -/
def fillVisitLoop (is_successful force_red_flag : Bool) (vehicle_count : Nat) :
    List String → List VisitAct
  | [] => []
  | l :: ls =>
      fillVisitLabelActs is_successful force_red_flag vehicle_count l ++
        (if l == "Outcome:" then []
         else fillVisitLoop is_successful force_red_flag vehicle_count ls)

/-- Python `_fill_visit(visit_num, ...)` (lines 893-1162): the label-driven fills
followed by the always-attempted export macro, every action tagged with
the visit number. -/
def fillVisitTr (visit_num : Nat) (is_successful force_red_flag : Bool)
    (vehicle_count : Nat) (sheetLabels : List String) : List Event :=
  (fillVisitLoop is_successful force_red_flag vehicle_count sheetLabels ++
    [VisitAct.macroA "ExportSingleVisitByNum"]).map (Event.visitEv visit_num)

/-- Python `VisitDocumentTester.setup` (lines 512-532): open the workbook, then
run the `EnableTestMode` macro. -/
def setupTr : List Event :=
  [Event.openWorkbookEv, Event.macroEv "EnableTestMode"]

/-- Python `scenario_normal_day(itinerary_path)` (lines 637-736): the fixed step
sequence, with the five visits filled in order under their forced test
configurations.  `labels n` is the label sequence the sheet presents for
visit `n`. -/
def scenarioNormalDayTr (labels : Nat → List String) : List Event :=
  stepTr "Navigate to Visit Document Processor tab" [.actEv "activate Visit Document Processor"] ++
  stepTr "Set visit date to today" [.actEv "set B10"] ++
  stepTr "Set officers" [.actEv "set B13", .actEv "set B14"] ++
  stepTr "Load itinerary file" [.macroEv "LoadExcelFileFromPath"] ++
  stepTr "Create Visit Sheet" [.macroEv "CreateExcelVisitSheet"] ++
  stepTr "Fill out Visit #1 (Successful, 2 vehicles)" (fillVisitTr 1 true false 2 (labels 1)) ++
  stepTr "Fill out Visit #2 (Successful, 5 vehicles, RED FLAG)" (fillVisitTr 2 true true 5 (labels 2)) ++
  stepTr "Fill out Visit #3 (Successful, No Vehicles, RED FLAG)" (fillVisitTr 3 true true 0 (labels 3)) ++
  stepTr "Fill out Visit #4 (Unsuccessful - P Denied Access)" (fillVisitTr 4 false false 1 (labels 4)) ++
  stepTr "Fill out Visit #5 (Unsuccessful - Not Home)" (fillVisitTr 5 false false 1 (labels 5)) ++
  stepTr "Refresh metrics" [.macroEv "RefreshMetrics"] ++
  stepTr "Validate metrics section" [.actEv "validate metrics"]

/-- Python `main` (lines 1245-1324): setup, the one enabled scenario, then the
report generation (`tester.generate_report()`, which writes the single
HTML file). -/
def mainTr (labels : Nat → List String) : List Event :=
  setupTr ++ scenarioNormalDayTr labels ++ [Event.writeReportEv]

/-- The visit number an event is tagged with, if any. -/
def visitTag : Event → Option Nat
  | .visitEv n _ => some n
  | _ => none

/-! ## Helper lemmas -/

theorem random_choice_mem (l : List String) (i : Nat) (h : l ≠ []) :
    random_choice l i ∈ l := by
  unfold random_choice
  have hl : 0 < l.length := List.length_pos.mpr h
  have hi : i % l.length < l.length := Nat.mod_lt _ hl
  rw [List.getD_eq_getElem?_getD, List.getElem?_eq_getElem hi]
  exact List.getElem_mem hi

/-! ## Claims -/

/-- C1: when a step's action raises, `VisitDocumentTester.step` returns
False, appends the step with status "fail" and the exception message as
details, and appends the error; and `TestResult.finish` (called with its
default status "pass" by `finish_test`) marks the test "fail" exactly when
the errors list is non-empty. -/
theorem claim_C1_step_exception_policy (t : TestResult) (description e : String)
    (ts now : Int) (ssPath : Option String) :
    (tester_step t description ts (some e) ssPath).2 = false ∧
    (tester_step t description ts (some e) ssPath).1.steps =
      t.steps ++ [{ description := description, status := "fail",
                    details := some e, timestamp := ts }] ∧
    (tester_step t description ts (some e) ssPath).1.errors =
      t.errors ++ [{ error := e, timestamp := ts }] ∧
    ((finish_test t now).status = "fail" ↔ t.errors ≠ []) := by
  refine ⟨rfl, rfl, rfl, ?_⟩
  unfold finish_test TestResult.finish
  by_cases h : t.errors = []
  · simp [h]
  · simp [h, List.isEmpty_iff]

/-- C9: `TestResult.duration` is 0 while the test is running and equals
`end_time - start_time` (seconds) once `finish` has set `end_time`;
`finish` leaves the name, steps and screenshots untouched. -/
theorem claim_C9_duration_and_finish (t : TestResult) (name : String)
    (s now : Int) (status : String) :
    (mkTestResult name s).duration = 0 ∧
    (t.end_time = none → t.duration = 0) ∧
    (∀ e : Int, t.end_time = some e → t.duration = e - t.start_time) ∧
    (t.finish now status).duration = now - t.start_time ∧
    (t.finish now status).name = t.name ∧
    (t.finish now status).steps = t.steps ∧
    (t.finish now status).screenshots = t.screenshots := by
  refine ⟨rfl, ?_, ?_, rfl, rfl, rfl, rfl⟩
  · intro h; unfold TestResult.duration; rw [h]
  · intro e h; unfold TestResult.duration; rw [h]

/-- Witness for C9: a freshly created result has duration 0, and after
`finish` at instant 25 a result started at instant 10 has duration 15. -/
theorem claim_C9_witness :
    (mkTestResult "Normal Day Workflow" 10).duration = 0 ∧
    ((mkTestResult "Normal Day Workflow" 10).finish 25 "pass").duration = (25 : Int) - 10 :=
  ⟨(claim_C9_duration_and_finish (mkTestResult "Normal Day Workflow" 10)
      "Normal Day Workflow" 10 25 "pass").1,
   (claim_C9_duration_and_finish (mkTestResult "Normal Day Workflow" 10)
      "Normal Day Workflow" 10 25 "pass").2.2.2.1⟩

/-- C10: `run_macro` performs exactly one invocation of the named macro,
returning True on success and False when the call raises (no retry, no
propagation); `ScreenshotCapture.capture` returns None both when the
screenshot library is unavailable (leaving the state untouched) and when
the capture raises (recording no screenshot entry). -/
theorem claim_C10_single_attempt_and_capture (name : String)
    (outcome : Except String Unit) (e : String) (dir : String)
    (s : CaptureState) (nm tStr iStr : String) :
    (runMacroModel name outcome).1 = [name] ∧
    ((runMacroModel name outcome).2 = true ↔ outcome = .ok ()) ∧
    (runMacroModel name (.error e)).2 = false ∧
    capture dir s false outcome nm tStr iStr = (s, none) ∧
    (capture dir s true (.error e) nm tStr iStr).2 = none ∧
    (capture dir s true (.error e) nm tStr iStr).1.screenshots = s.screenshots := by
  refine ⟨rfl, ?_, rfl, rfl, rfl, rfl⟩
  cases outcome with
  | ok u => cases u; simp [runMacroModel]
  | error x => simp [runMacroModel]

theorem stepsHtml_acc (steps : List StepRecord) :
    ∀ acc : String, steps.foldl (fun acc s => acc ++ stepHtml s) acc =
      acc ++ stepsHtml steps := by
  induction steps with
  | nil =>
      intro acc
      show acc = acc ++ stepsHtml []
      rw [show stepsHtml [] = "" from rfl, String.append_empty]
  | cons s rest ih =>
      intro acc
      have hcons : stepsHtml (s :: rest) = stepHtml s ++ stepsHtml rest := by
        show (s :: rest).foldl (fun acc s => acc ++ stepHtml s) "" = _
        rw [List.foldl_cons, ih ("" ++ stepHtml s), String.empty_append]
      rw [List.foldl_cons, ih (acc ++ stepHtml s), hcons, String.append_assoc]

/-- C2: the report's "Passed" count equals the number of results with
status "pass", the "Failed" count is the total minus the passed count
(their sum is the total), the counts appear at the summary positions of
the built document, and each result's steps are rendered in recording
order, each step with its recorded status and description. -/
theorem claim_C2_report_counts_and_steps (relpath : String → String)
    (nowStr : String) (results : List TestResult) (t : TestResult) (s : StepRecord) :
    passedCount results = (results.filter (fun t => t.status == "pass")).length ∧
    failedCount results = results.length - passedCount results ∧
    passedCount results + failedCount results = results.length ∧
    build_html relpath nowStr results =
      htmlHead1 ++ nowStr ++ htmlHead2 ++ toString (passedCount results) ++ htmlMid1 ++
      toString (failedCount results) ++ htmlMid2 ++ fmtF1 (totalDuration results) ++
      htmlSummaryEnd ++ testCasesHtml relpath results ++ htmlFoot ∧
    stepsHtml t.steps = String.join (t.steps.map stepHtml) ∧
    (∀ l1 l2 : List StepRecord, stepsHtml (l1 ++ l2) = stepsHtml l1 ++ stepsHtml l2) ∧
    stepHtml s = stepHtmlC1 ++ s.status ++ stepHtmlC2 ++ s.status ++ stepHtmlC3 ++
      s.description ++ stepHtmlC4 ++ toString s.timestamp ++ stepHtmlC5 := by
  refine ⟨List.countP_eq_length_filter _ _, rfl, ?_, rfl, ?_, ?_, rfl⟩
  · unfold failedCount
    have hle : passedCount results ≤ results.length := List.countP_le_length _
    omega
  · unfold stepsHtml String.join
    rw [List.foldl_map]
  · intro l1 l2
    unfold stepsHtml
    rw [List.foldl_append, stepsHtml_acc]
    rfl

theorem fallback_text_cases (prompt : String) (ridx : Nat) :
    fallback_text prompt ridx ∈ FALLBACK_RESIDENCE_DESCRIPTIONS ∨
    fallback_text prompt ridx ∈ FALLBACK_OBSERVED_DESCRIPTIONS ∨
    fallback_text prompt ridx ∈ FALLBACK_RED_FLAG_DESCRIPTIONS ∨
    fallback_text prompt ridx = "Test text entry." := by
  unfold fallback_text
  split_ifs with h1 h2 h3
  · exact Or.inl (random_choice_mem _ _ (by decide))
  · exact Or.inr (Or.inl (random_choice_mem _ _ (by decide)))
  · exact Or.inr (Or.inr (Or.inl (random_choice_mem _ _ (by decide))))
  · exact Or.inr (Or.inr (Or.inr rfl))

/-- C3: whenever the service is unavailable (failed liveness probe or
missing requests library — both make `available` false), or the POST
raises, or it returns a non-200 status, `generate` returns a locally
selected fallback string (an element of one of the fixed fallback lists or
the constant "Test text entry."); being a total function, it raises
nothing. -/
theorem claim_C3_generate_fallback (g : Ollama) (post : PostResult)
    (prompt : String) (max_tokens ridx : Nat)
    (h : g.available = false ∨ post = PostResult.raised ∨
         ∃ r, post = PostResult.ok r ∧ r.status ≠ 200) :
    (generate g post prompt max_tokens ridx).2 ∈ FALLBACK_RESIDENCE_DESCRIPTIONS ∨
    (generate g post prompt max_tokens ridx).2 ∈ FALLBACK_OBSERVED_DESCRIPTIONS ∨
    (generate g post prompt max_tokens ridx).2 ∈ FALLBACK_RED_FLAG_DESCRIPTIONS ∨
    (generate g post prompt max_tokens ridx).2 = "Test text entry." := by
  have hfb : (generate g post prompt max_tokens ridx).2 = fallback_text prompt ridx := by
    rcases h with h | h | ⟨r, hr, hs⟩
    · simp [generate, h]
    · subst h
      unfold generate
      by_cases ha : g.available = false
      · simp [ha]
      · simp [ha]
    · subst hr
      unfold generate
      by_cases ha : g.available = false
      · simp [ha]
      · have : (r.status == 200) = false := by
          simpa using hs
        simp [ha, this]
  rw [hfb]
  exact fallback_text_cases prompt ridx

/-- Witness for C3: with the requests library missing the generator is
unavailable, and a concrete prompt gets some fallback string. -/
theorem claim_C3_witness :
    (generate (mkOllama "llama3:8b" "http://localhost:11434" false none)
        PostResult.raised "please write" 150 0).2 ∈ FALLBACK_RESIDENCE_DESCRIPTIONS ∨
    (generate (mkOllama "llama3:8b" "http://localhost:11434" false none)
        PostResult.raised "please write" 150 0).2 ∈ FALLBACK_OBSERVED_DESCRIPTIONS ∨
    (generate (mkOllama "llama3:8b" "http://localhost:11434" false none)
        PostResult.raised "please write" 150 0).2 ∈ FALLBACK_RED_FLAG_DESCRIPTIONS ∨
    (generate (mkOllama "llama3:8b" "http://localhost:11434" false none)
        PostResult.raised "please write" 150 0).2 = "Test text entry." :=
  claim_C3_generate_fallback _ _ _ _ _ (Or.inl rfl)

/-- C5: the generator is available iff the requests library is present and
the GET to /api/tags returned status 200; when available, the POST issued
by `generate` targets `{base_url}/api/generate` and its JSON body carries
the configured model and the prompt; and a 200 response yields the
response field stripped of surrounding whitespace. -/
theorem claim_C5_http_contract (model base_url : String) (requestsAvailable : Bool)
    (getStatus : Option Nat) (g : Ollama) (post : PostResult) (r : PostResponse)
    (prompt : String) (max_tokens ridx : Nat) :
    ((mkOllama model base_url requestsAvailable getStatus).available = true ↔
      (requestsAvailable = true ∧ getStatus = some 200)) ∧
    (g.available = true →
      (generate g post prompt max_tokens ridx).1 =
        some { url := g.base_url ++ "/api/generate", model := g.model,
               prompt := prompt, stream := false, num_predict := max_tokens }) ∧
    (g.available = true → r.status = 200 →
      (generate g (PostResult.ok r) prompt max_tokens ridx).2 = r.response.trim) := by
  refine ⟨?_, ?_, ?_⟩
  · unfold mkOllama check_availability
    cases requestsAvailable with
    | false => simp
    | true =>
        cases getStatus with
        | none => simp
        | some code => simp [beq_iff_eq]
  · intro ha
    unfold generate
    rw [ha]
    cases post with
    | raised => simp
    | ok rr => by_cases hs : (rr.status == 200) = true <;> simp [hs]
  · intro ha hs
    unfold generate
    rw [ha]
    simp [hs]

/-- Witness for C5: a 200 probe makes the generator available, and a 200
POST response body is returned stripped. -/
theorem claim_C5_witness :
    ((mkOllama "llama3:8b" "http://localhost:11434" true (some 200)).available = true) ∧
    (generate { model := "llama3:8b", base_url := "http://localhost:11434", available := true }
        (PostResult.ok { status := 200, response := "  generated text  " })
        "describe" 150 0).2 = "  generated text  ".trim :=
  ⟨(claim_C5_http_contract "llama3:8b" "http://localhost:11434" true (some 200)
      { model := "llama3:8b", base_url := "http://localhost:11434", available := true }
      PostResult.raised { status := 200, response := "" } "describe" 150 0).1.mpr
      ⟨rfl, rfl⟩,
   (claim_C5_http_contract "llama3:8b" "http://localhost:11434" true (some 200)
      { model := "llama3:8b", base_url := "http://localhost:11434", available := true }
      PostResult.raised { status := 200, response := "  generated text  " }
      "describe" 150 0).2.2 rfl rfl⟩

theorem res_choice_props (i : Nat) :
    random_choice FALLBACK_RESIDENCE_DESCRIPTIONS i ∈ FALLBACK_RESIDENCE_DESCRIPTIONS ∧
    random_choice FALLBACK_RESIDENCE_DESCRIPTIONS i ∉ FALLBACK_OBSERVED_DESCRIPTIONS ∧
    random_choice FALLBACK_RESIDENCE_DESCRIPTIONS i ∉ FALLBACK_RED_FLAG_DESCRIPTIONS := by
  have hmem := random_choice_mem FALLBACK_RESIDENCE_DESCRIPTIONS i (by decide)
  have hdisj : ∀ s ∈ FALLBACK_RESIDENCE_DESCRIPTIONS,
      s ∉ FALLBACK_OBSERVED_DESCRIPTIONS ∧ s ∉ FALLBACK_RED_FLAG_DESCRIPTIONS := by decide
  exact ⟨hmem, (hdisj _ hmem).1, (hdisj _ hmem).2⟩

theorem fallback_text_residence (p : String) (ridx : Nat)
    (hp : (promptContains p "residence" || promptContains p "home") = true) :
    fallback_text p ridx = random_choice FALLBACK_RESIDENCE_DESCRIPTIONS ridx := by
  simp [fallback_text, hp]

/-- C4: `_fallback_text` tests residence/home before observed and red
flag, and every prompt built by `generate_observed_description` and
`generate_red_flag_description` contains the word "home"; hence with
Ollama unavailable both always return an element of
`FALLBACK_RESIDENCE_DESCRIPTIONS` and never one of
`FALLBACK_OBSERVED_DESCRIPTIONS` or `FALLBACK_RED_FLAG_DESCRIPTIONS`. -/
theorem claim_C4_home_shadows_fallbacks (g : Ollama) (post : PostResult)
    (ridx : Nat) (is_successful : Bool) (visit_type reason flag_type : String)
    (h : g.available = false) :
    ((generate_observed_description g post ridx is_successful visit_type reason).2 ∈
        FALLBACK_RESIDENCE_DESCRIPTIONS ∧
     (generate_observed_description g post ridx is_successful visit_type reason).2 ∉
        FALLBACK_OBSERVED_DESCRIPTIONS ∧
     (generate_observed_description g post ridx is_successful visit_type reason).2 ∉
        FALLBACK_RED_FLAG_DESCRIPTIONS) ∧
    ((generate_red_flag_description g post ridx flag_type).2 ∈
        FALLBACK_RESIDENCE_DESCRIPTIONS ∧
     (generate_red_flag_description g post ridx flag_type).2 ∉
        FALLBACK_OBSERVED_DESCRIPTIONS ∧
     (generate_red_flag_description g post ridx flag_type).2 ∉
        FALLBACK_RED_FLAG_DESCRIPTIONS) := by
  have hgen : ∀ p mt, (generate g post p mt ridx).2 = fallback_text p ridx := by
    intro p mt; simp [generate, h]
  have hobs : (generate_observed_description g post ridx is_successful visit_type reason).2 =
      random_choice FALLBACK_RESIDENCE_DESCRIPTIONS ridx := by
    unfold generate_observed_description
    split_ifs <;> (rw [hgen]; exact fallback_text_residence _ ridx (by decide))
  have hflag : (generate_red_flag_description g post ridx flag_type).2 =
      random_choice FALLBACK_RESIDENCE_DESCRIPTIONS ridx := by
    unfold generate_red_flag_description red_flag_prompt
    split_ifs <;> (rw [hgen]; exact fallback_text_residence _ ridx (by decide))
  obtain ⟨hm, hno, hnf⟩ := res_choice_props ridx
  rw [hobs, hflag]
  exact ⟨⟨hm, hno, hnf⟩, ⟨hm, hno, hnf⟩⟩

/-- Witness for C4: with the requests library missing, the observed
description of an FTR visit is drawn from the residence fallback pool. -/
theorem claim_C4_witness :
    (generate_observed_description (mkOllama "llama3:8b" "http://localhost:11434" false none)
        PostResult.raised 0 true "FTR" "").2 ∈ FALLBACK_RESIDENCE_DESCRIPTIONS :=
  (claim_C4_home_shadows_fallbacks
    (mkOllama "llama3:8b" "http://localhost:11434" false none)
    PostResult.raised 0 true "FTR" "" "Alcohol" rfl).1.1

theorem pickFreshName_not_mem (draws : List (Nat × Nat)) (used : List String)
    (nm : String) (h : pickFreshName draws used = some nm) : nm ∉ used := by
  unfold pickFreshName at h
  have h2 := List.find?_some h
  intro hmem
  have h3 : used.elem nm = true := List.elem_eq_true_of_mem hmem
  rw [show used.contains nm = used.elem nm from rfl, h3] at h2
  simp at h2

theorem genVisits_spec (oracle : Nat → RowDraw) (pair : String × String) :
    ∀ (count i : Nat) (usedN usedA : List String) (rows : List RowResult),
      genVisits oracle pair i count usedN usedA = some rows →
      rows.length = count ∧
      (∀ j (hj : j < rows.length),
        (rows.get ⟨j, hj⟩).loc = i + j + 1 ∧
        (rows.get ⟨j, hj⟩).starts = fmt12 (480 + 30 * (i + j)) ∧
        (rows.get ⟨j, hj⟩).officer = (if (i + j) % 2 == 0 then pair.1 else pair.2)) ∧
      (∀ r ∈ rows, r.defendant ∉ usedN) ∧
      (rows.map (fun r => r.defendant)).Nodup := by
  intro count
  induction count with
  | zero =>
      intro i usedN usedA rows h
      unfold genVisits at h
      cases h
      refine ⟨rfl, ?_, ?_, List.nodup_nil⟩
      · intro j hj; exact absurd hj (by simp)
      · intro r hr; exact absurd hr (by simp)
  | succ c ih =>
      intro i usedN usedA rows h
      unfold genVisits at h
      cases hf : pickFreshName (oracle i).nameDraws usedN with
      | none => rw [hf] at h; cases h
      | some defendant =>
          rw [hf] at h
          dsimp only at h
          cases hrec : genVisits oracle pair (i + 1) c (defendant :: usedN)
              ((pickAddress (fun k => get_random_address ((oracle i).addrDraws k)) usedA).1
                :: usedA) with
          | none => rw [hrec] at h; cases h
          | some rest =>
              rw [hrec] at h
              injection h with h
              subst h
              obtain ⟨hlen, hget, hfresh, hnodup⟩ :=
                ih (i + 1) (defendant :: usedN) _ rest hrec
              refine ⟨by simp [hlen], ?_, ?_, ?_⟩
              · intro j hj
                cases j with
                | zero => exact ⟨rfl, rfl, rfl⟩
                | succ j =>
                    have hj' : j < rest.length := by
                      simpa [Nat.succ_lt_succ_iff] using hj
                    have e : i + (j + 1) = i + 1 + j := by omega
                    rw [List.get_cons_succ]
                    rw [e]
                    exact hget j hj'
              · intro r hr
                rcases List.mem_cons.mp hr with hr | hr
                · subst hr
                  exact pickFreshName_not_mem _ _ _ hf
                · intro hmem
                  exact (hfresh r hr) (List.mem_cons_of_mem _ hmem)
              · rw [List.map_cons]
                refine List.nodup_cons.mpr ⟨?_, hnodup⟩
                intro hmem
                rcases List.mem_map.mp hmem with ⟨r, hr, hdef⟩
                exact (hfresh r hr) (hdef ▸ List.mem_cons_self _ _)

/-- C7: for an itinerary of `n` visits, the data rows are rows 8 through
7+n, the i-th (0-based) visit has location index i+1 in column 1, a start
time of 8:00 AM plus 30·i minutes in column 5, and an officer alternating
between the two members of the chosen pair; all defendant names are
pairwise distinct.  Addresses need not be distinct: under `dupOracle` the
second row exhausts its 50 redraw attempts and repeats the first row's
address. -/
theorem claim_C7_row_contents (n : Nat) (oracle : Nat → RowDraw)
    (pair : String × String) (rows : List RowResult)
    (h : genVisits oracle pair 0 n [] [] = some rows) :
    rows.length = n ∧
    (∀ j (hj : j < rows.length),
      (rows.get ⟨j, hj⟩).loc = j + 1 ∧
      (rows.get ⟨j, hj⟩).starts = fmt12 (480 + 30 * j) ∧
      (rows.get ⟨j, hj⟩).officer = (if j % 2 == 0 then pair.1 else pair.2) ∧
      (rowWrites j (rows.get ⟨j, hj⟩)).map (fun w => w.row) =
        List.replicate 10 (8 + j)) ∧
    (rows.map (fun r => r.defendant)).Nodup ∧
    (genVisits dupOracle ("OFFICER, A", "OFFICER, B") 0 2 [] [] = some dupRows ∧
      ¬ (dupRows.map (fun r => r.address)).Nodup) := by
  obtain ⟨hlen, hget, _, hnodup⟩ := genVisits_spec oracle pair n 0 [] [] rows h
  refine ⟨hlen, ?_, hnodup, by decide, by decide⟩
  intro j hj
  obtain ⟨h1, h2, h3⟩ := hget j hj
  rw [Nat.zero_add] at h1 h2 h3
  exact ⟨h1, h2, h3, rfl⟩

/-- Witness for C7: under `dupOracle` with two visits the hypothesis holds
by computation, and the two defendant names are distinct. -/
theorem claim_C7_witness :
    (dupRows.map (fun r => r.defendant)).Nodup :=
  (claim_C7_row_contents 2 dupOracle ("OFFICER, A", "OFFICER, B") dupRows
    (by decide)).2.2.1

/-- C6: `generate_itinerary` writes the header row at row 7 with exactly
the ten column titles in columns 1 through 10 in that order, and every
generated data row populates exactly those ten columns. -/
theorem claim_C6_layout (n : Nat) (oracle : Nat → RowDraw)
    (officer_pair : Option (String × String)) (pairDraw : Nat) (ws : List CellWrite)
    (h : generate_itinerary n oracle officer_pair pairDraw = some ws) :
    headerWrites =
      [{ row := 7, col := 1, val := .str "Loc" },
       { row := 7, col := 2, val := .str "Unit" },
       { row := 7, col := 3, val := .str "Defendant" },
       { row := 7, col := 4, val := .str "Officer" },
       { row := 7, col := 5, val := .str "Starts" },
       { row := 7, col := 6, val := .str "Cell Phone" },
       { row := 7, col := 7, val := .str "Address" },
       { row := 7, col := 8, val := .str "City" },
       { row := 7, col := 9, val := .str "Zip" },
       { row := 7, col := 10, val := .str "Comment" }] ∧
    (∃ rows, genVisits oracle (resolvePair officer_pair pairDraw) 0 n [] [] = some rows ∧
      ws = headerWrites ++ rows.enum.flatMap (fun p => rowWrites p.1 p.2)) ∧
    (∀ i (r : RowResult), (rowWrites i r).map (fun w => w.col) =
      [1, 2, 3, 4, 5, 6, 7, 8, 9, 10]) := by
  refine ⟨by decide, ?_, fun i r => rfl⟩
  unfold generate_itinerary at h
  cases hg : genVisits oracle (resolvePair officer_pair pairDraw) 0 n [] [] with
  | none => rw [hg] at h; cases h
  | some rows =>
      rw [hg] at h
      injection h with h
      exact ⟨rows, rfl, h.symm⟩

/-- Witness for C6: a zero-visit itinerary consists of the header writes
alone, and a concrete data row populates exactly columns 1-10. -/
theorem claim_C6_witness :
    (rowWrites 0
      { loc := 1, unit := "B", defendant := "SMITH, JAMES", officer := "OFFICER, A",
        starts := "08:00 AM", phone := "(214) 200-1000",
        address := "1823 Mockingbird Ln", city := "Dallas", zip := "75235",
        comment := "AM Intake" }).map (fun w => w.col) =
      [1, 2, 3, 4, 5, 6, 7, 8, 9, 10] :=
  (claim_C6_layout 0 dupOracle none 0 headerWrites (by decide)).2.2 0 _

theorem filterMap_const_some {α : Type} (n : Nat) (l : List α) :
    l.filterMap (fun _ => some n) = List.replicate l.length n := by
  induction l with
  | nil => rfl
  | cons a t ih => simp [List.filterMap_cons, ih, List.replicate_succ]

theorem tags_fillVisitTr (n : Nat) (isS rf : Bool) (vc : Nat) (labels : List String) :
    (fillVisitTr n isS rf vc labels).filterMap visitTag =
      List.replicate ((fillVisitLoop isS rf vc labels).length + 1) n := by
  unfold fillVisitTr
  rw [List.filterMap_map,
      show visitTag ∘ Event.visitEv n = fun _ => some n from rfl,
      filterMap_const_some]
  simp

theorem count_report_fillVisitTr (n : Nat) (isS rf : Bool) (vc : Nat)
    (labels : List String) :
    (fillVisitTr n isS rf vc labels).count Event.writeReportEv = 0 := by
  rw [List.count_eq_zero]
  unfold fillVisitTr
  simp [List.mem_map]

/-- C8: the run is linear: the workbook-open and test-mode macro events
precede everything else; the visit-tagged events of the scenario occur in
increasing visit number (their tag sequence is a concatenation of
constant blocks 1,2,3,4,5); the report write occurs exactly once and is
the final event, after all visits; and each step ends with its screenshot
capture. -/
theorem claim_C8_linear_script (labels : Nat → List String) :
    (mainTr labels).take 2 = [Event.openWorkbookEv, Event.macroEv "EnableTestMode"] ∧
    (∃ k1 k2 k3 k4 k5, (mainTr labels).filterMap visitTag =
      List.replicate k1 1 ++ List.replicate k2 2 ++ List.replicate k3 3 ++
      List.replicate k4 4 ++ List.replicate k5 5) ∧
    (mainTr labels).count Event.writeReportEv = 1 ∧
    (mainTr labels).getLast? = some Event.writeReportEv ∧
    (∀ (d : String) (acts : List Event),
      (stepTr d acts).getLast? = some (Event.screenshotEv d)) := by
  refine ⟨rfl, ?_, ?_, ?_, fun d acts => List.getLast?_concat _⟩
  · refine ⟨(fillVisitLoop true false 2 (labels 1)).length + 1,
            (fillVisitLoop true true 5 (labels 2)).length + 1,
            (fillVisitLoop true true 0 (labels 3)).length + 1,
            (fillVisitLoop false false 1 (labels 4)).length + 1,
            (fillVisitLoop false false 1 (labels 5)).length + 1, ?_⟩
    simp [mainTr, setupTr, scenarioNormalDayTr, stepTr, List.filterMap_append,
          tags_fillVisitTr, visitTag]
  · simp [mainTr, setupTr, scenarioNormalDayTr, stepTr, List.count_append,
          count_report_fillVisitTr]
  · show (setupTr ++ (scenarioNormalDayTr labels ++ [Event.writeReportEv])).getLast? = _
    rw [← List.append_assoc]
    exact List.getLast?_concat _

/-- Witness for C1: a concrete failing step returns False, and a test
with no errors finishes as not-"fail". -/
theorem claim_C1_witness :
    (tester_step (mkTestResult "Normal Day Workflow" 0) "Load itinerary file" 1
        (some "COM error") none).2 = false ∧
    ((finish_test (mkTestResult "Normal Day Workflow" 0) 2).status = "fail" ↔
      (mkTestResult "Normal Day Workflow" 0).errors ≠ []) :=
  ⟨(claim_C1_step_exception_policy (mkTestResult "Normal Day Workflow" 0)
      "Load itinerary file" "COM error" 1 2 none).1,
   (claim_C1_step_exception_policy (mkTestResult "Normal Day Workflow" 0)
      "Load itinerary file" "COM error" 1 2 none).2.2.2⟩

/-- Witness for C2: the counts and the step rendering at a concrete
result list. -/
theorem claim_C2_witness :
    passedCount [] =
      (List.filter (fun t => t.status == "pass") ([] : List TestResult)).length ∧
    stepsHtml ([] ++ []) = stepsHtml [] ++ stepsHtml [] :=
  ⟨(claim_C2_report_counts_and_steps (fun p => p) "2025-01-01 00:00:00" []
      (mkTestResult "t" 0)
      { description := "d", status := "pass", details := none, timestamp := 0 }).1,
   (claim_C2_report_counts_and_steps (fun p => p) "2025-01-01 00:00:00" []
      (mkTestResult "t" 0)
      { description := "d", status := "pass", details := none, timestamp := 0 }).2.2.2.2.2.1
      [] []⟩

/-- Witness for C8: the trace under an empty label oracle opens the
workbook first and writes the report exactly once. -/
theorem claim_C8_witness :
    (mainTr (fun _ => [])).take 2 =
      [Event.openWorkbookEv, Event.macroEv "EnableTestMode"] ∧
    (mainTr (fun _ => [])).count Event.writeReportEv = 1 :=
  ⟨(claim_C8_linear_script (fun _ => [])).1,
   (claim_C8_linear_script (fun _ => [])).2.2.1⟩

/-- Witness for C10: a raising macro call yields False after its single
attempt, and a raising capture records nothing. -/
theorem claim_C10_witness :
    (runMacroModel "RefreshMetrics" (Except.error "COM error")).2 = false ∧
    (runMacroModel "RefreshMetrics" (Except.error "COM error")).1 = ["RefreshMetrics"] ∧
    (capture "out" { screenshot_count := 0, screenshots := [] } true
        (Except.error "grab failed") "shot" "120000" "iso").1.screenshots = [] :=
  ⟨(claim_C10_single_attempt_and_capture "RefreshMetrics" (Except.error "COM error")
      "COM error" "out" { screenshot_count := 0, screenshots := [] }
      "shot" "120000" "iso").2.2.1,
   (claim_C10_single_attempt_and_capture "RefreshMetrics" (Except.error "COM error")
      "COM error" "out" { screenshot_count := 0, screenshots := [] }
      "shot" "120000" "iso").1,
   (claim_C10_single_attempt_and_capture "RefreshMetrics" (Except.error "COM error")
      "COM error" "out" { screenshot_count := 0, screenshots := [] }
      "shot" "120000" "iso").2.2.2.2.2⟩

end VisitProc
